import Mathlib

/-!
Verification development for the bot-automation-v1 trading bot.

Shallow embedding of the signal-generation and position-lifecycle engine:

* src/strategies/session_aware_strategy.py  (session classifier, signal
  scorer, ATR-scaled TP/SL policy)
* src/strategies/ma_strategy.py             (fixed-percentage TP/SL policy)
* src/bot.py                                (fixed TP/SL, order sizing,
  position ledger: monitor / close / open)

Modelling conventions:

* Python floats are modelled as rationals.  Indicator columns of a
  pandas dataframe row are modelled as `Option` rationals, where `none`
  stands for pandas NaN; every comparison involving a NaN/none value
  evaluates to `false`, exactly as float NaN comparisons do in Python.
* Division producing an indicator value is undefined (none) when the
  denominator is zero or undefined.
* The indicator computation itself (the external `ta` library called by
  `add_indicators`) is outside this repository; functions below take the
  already-augmented indicator frame, holding exactly the columns and the
  trailing rows that the decision-time code reads.
-/

/-- Models Python `float(cond)` applied to a boolean condition:
`1` when the condition holds, `0` otherwise. -/
def b2q (b : Bool) : ℚ := if b then 1 else 0

/-- Strict less-than on possibly-NaN values; any comparison with NaN is false. -/
def oLt (x y : Option ℚ) : Bool :=
  match x, y with
  | some a, some b => decide (a < b)
  | _, _ => false

/-- Strict greater-than on possibly-NaN values; any comparison with NaN is false. -/
def oGt (x y : Option ℚ) : Bool :=
  match x, y with
  | some a, some b => decide (b < a)
  | _, _ => false

/-- Non-strict less-or-equal on possibly-NaN values; any comparison with NaN is false. -/
def oLe (x y : Option ℚ) : Bool :=
  match x, y with
  | some a, some b => decide (a ≤ b)
  | _, _ => false

/-- Non-strict greater-or-equal on possibly-NaN values; any comparison with NaN is false. -/
def oGe (x y : Option ℚ) : Bool :=
  match x, y with
  | some a, some b => decide (b ≤ a)
  | _, _ => false

/-- Strict less-than against a plain scalar; false when the left side is NaN. -/
def oLtQ (x : Option ℚ) (c : ℚ) : Bool :=
  match x with
  | some a => decide (a < c)
  | none => false

/-- Strict greater-than against a plain scalar; false when the left side is NaN. -/
def oGtQ (x : Option ℚ) (c : ℚ) : Bool :=
  match x with
  | some a => decide (c < a)
  | none => false

/-- Subtraction lifted to possibly-NaN values. -/
def oSub (x y : Option ℚ) : Option ℚ :=
  match x, y with
  | some a, some b => some (a - b)
  | _, _ => none

/-- Division lifted to possibly-NaN values; a zero denominator is treated as
undefined (Python float division by zero yields an inf/NaN value on which
the comparisons made by the scorer are not exercised by the claims). -/
def oDiv (x y : Option ℚ) : Option ℚ :=
  match x, y with
  | some a, some b => if b = 0 then none else some (a / b)
  | _, _ => none

/-- Trading session, per SessionAwareStrategy.get_session. -/
inductive Session where
  | asian
  | european
  | us
deriving DecidableEq, Repr

/-- Dictionary returned by SessionAwareStrategy.get_session_parameters. -/
structure SessionParams where
  rsi_overbought : ℚ
  rsi_oversold : ℚ
  atr_multiplier : ℚ
  min_volume_mult : ℚ
  trend_bias : ℚ
  mean_reversion_bias : ℚ
deriving DecidableEq, Repr

/-- Configuration attributes of the SessionAwareStrategy class.  The field
defaults are the default constructor arguments of `__init__`; the session
tables (rsi/atr/vol) are set unconditionally to these literals by
`__init__`. -/
structure SessionAwareStrategy where
  ema_fast : ℕ := 8
  ema_medium : ℕ := 21
  ema_slow : ℕ := 50
  rsi_period : ℕ := 14
  bb_period : ℕ := 20
  bb_std : ℚ := 2
  macd_fast : ℕ := 12
  macd_slow : ℕ := 26
  macd_signal : ℕ := 9
  atr_period : ℕ := 14
  volume_ma_period : ℕ := 20
  trend_strength_threshold : ℚ := 2/1000
  signal_threshold : ℚ := 7/10
  rsi_asian_overbought : ℚ := 60
  rsi_asian_oversold : ℚ := 40
  rsi_european_overbought : ℚ := 65
  rsi_european_oversold : ℚ := 35
  rsi_us_overbought : ℚ := 70
  rsi_us_oversold : ℚ := 30
  atr_asian : ℚ := 1
  atr_european : ℚ := 3/2
  atr_us : ℚ := 2
  vol_asian : ℚ := 8/10
  vol_european : ℚ := 1
  vol_us : ℚ := 12/10
deriving DecidableEq, Repr

/-- A SessionAwareStrategy built with all constructor defaults, as the bot
does with the default environment configuration. -/
def SessionAwareStrategy.default : SessionAwareStrategy := {}

/-- SessionAwareStrategy.get_session reduced to its hour-of-day test.  The
timestamp normalisation (tz conversion or localisation to UTC) is out of
scope; the argument is the resulting UTC hour, in [0, 24). -/
def get_session (hour : ℕ) : Session :=
  if hour < 9 then .asian
  else if hour < 17 then .european
  else .us

/-- SessionAwareStrategy.get_session_parameters. -/
def get_session_parameters (s : SessionAwareStrategy) (session : Session) :
    SessionParams :=
  match session with
  | .asian =>
    { rsi_overbought := s.rsi_asian_overbought
      rsi_oversold := s.rsi_asian_oversold
      atr_multiplier := s.atr_asian
      min_volume_mult := s.vol_asian
      trend_bias := 4/10
      mean_reversion_bias := 6/10 }
  | .european =>
    { rsi_overbought := s.rsi_european_overbought
      rsi_oversold := s.rsi_european_oversold
      atr_multiplier := s.atr_european
      min_volume_mult := s.vol_european
      trend_bias := 7/10
      mean_reversion_bias := 3/10 }
  | .us =>
    { rsi_overbought := s.rsi_us_overbought
      rsi_oversold := s.rsi_us_oversold
      atr_multiplier := s.atr_us
      min_volume_mult := s.vol_us
      trend_bias := 85/100
      mean_reversion_bias := 15/100 }

/-- One indicator-augmented dataframe row, restricted to the columns that
the decision-time code reads.  `none` is pandas NaN.  `hour` is the UTC
hour of the row timestamp (see get_session). -/
structure Row where
  close : Option ℚ := none
  ema_fast : Option ℚ := none
  ema_medium : Option ℚ := none
  ema_slow : Option ℚ := none
  rsi : Option ℚ := none
  bb_upper : Option ℚ := none
  bb_lower : Option ℚ := none
  bb_position : Option ℚ := none
  macd : Option ℚ := none
  macd_signal : Option ℚ := none
  macd_diff : Option ℚ := none
  volume_ratio : Option ℚ := none
  atr_pct : Option ℚ := none
  hour : ℕ := 0
deriving DecidableEq, Repr

/-- The part of an indicator-augmented dataframe consulted at decision
time: its length and the rows `iloc[-1]`, `iloc[-2]`, `iloc[-3]`,
`iloc[-4]` (the last is only read when `len ≥ 4`). -/
structure Frame where
  len : ℕ
  current : Row
  previous : Row
  prev2 : Row
  prev3 : Row
deriving DecidableEq, Repr

/-- Long trend score before the momentum adjustment
(calculate_signal_strength, trend following conditions and weighted sum). -/
def trendScoreLongBase (s : SessionAwareStrategy) (f : Frame) : ℚ :=
  let current := f.current
  let previous := f.previous
  let long_trend_alignment := b2q (oGt current.ema_fast current.ema_medium &&
                                   oGt current.ema_medium current.ema_slow)
  let long_price_above_ema := b2q (oGt current.close current.ema_slow)
  let long_price_above_fast := b2q (oGt current.close current.ema_fast)
  let long_ema_gap := b2q (oGtQ (oDiv (oSub current.ema_fast current.ema_slow) current.ema_slow)
                                s.trend_strength_threshold)
  let long_ema_cross := b2q (oGt current.ema_fast current.ema_medium &&
                             oLe previous.ema_fast previous.ema_medium)
  let long_macd_bullish := b2q (oGt current.macd current.macd_signal &&
                                oGtQ current.macd_diff 0)
  let long_macd_cross := b2q (oGt current.macd current.macd_signal &&
                              oLe previous.macd previous.macd_signal)
  long_trend_alignment * (2/10) +
  long_price_above_ema * (15/100) +
  long_price_above_fast * (15/100) +
  long_ema_gap * (15/100) +
  long_ema_cross * (15/100) +
  long_macd_bullish * (1/10) +
  long_macd_cross * (1/10)

/-- Long trend score including the momentum confirmation applied when
`len(df) >= 4`. -/
def trendScoreLong (s : SessionAwareStrategy) (f : Frame) : ℚ :=
  let base := trendScoreLongBase s f
  if 4 ≤ f.len then
    let trend_momentum := b2q (oGt f.current.close f.prev3.close)
    let ema_momentum := b2q (oGt f.current.ema_fast f.prev2.ema_fast)
    base * (75/100) + (trend_momentum * (125/1000) + ema_momentum * (125/1000))
  else base

/-- Long mean reversion score before the volume blend. -/
def mrScoreLongBase (f : Frame) (p : SessionParams) : ℚ :=
  let current := f.current
  let previous := f.previous
  let long_bb_oversold := b2q (oLtQ current.bb_position (25/100))
  let long_bb_bounce := b2q (oGt current.close previous.close &&
                             oLt previous.close f.prev2.close)
  let long_rsi_oversold := b2q (oLtQ current.rsi p.rsi_oversold)
  let long_below_bb := b2q (oLt current.close current.bb_lower)
  long_bb_oversold * (25/100) +
  long_bb_bounce * (35/100) +
  long_rsi_oversold * (2/10) +
  long_below_bb * (2/10)

/-- Volume surge condition shared by the two mean reversion scores. -/
def volumeSurge (f : Frame) : ℚ := b2q (oGtQ f.current.volume_ratio (3/2))

/-- Long mean reversion score after the 0.8/0.2 volume blend. -/
def mrScoreLong (f : Frame) (p : SessionParams) : ℚ :=
  mrScoreLongBase f p * (8/10) + volumeSurge f * (2/10)

/-- Short trend score before the momentum adjustment. -/
def trendScoreShortBase (s : SessionAwareStrategy) (f : Frame) : ℚ :=
  let current := f.current
  let previous := f.previous
  let short_trend_alignment := b2q (oLt current.ema_fast current.ema_medium &&
                                    oLt current.ema_medium current.ema_slow)
  let short_price_below_ema := b2q (oLt current.close current.ema_slow)
  let short_price_below_fast := b2q (oLt current.close current.ema_fast)
  let short_ema_gap := b2q (oGtQ (oDiv (oSub current.ema_slow current.ema_fast) current.ema_slow)
                                 s.trend_strength_threshold)
  let short_ema_cross := b2q (oLt current.ema_fast current.ema_medium &&
                              oGe previous.ema_fast previous.ema_medium)
  let short_macd_bearish := b2q (oLt current.macd current.macd_signal &&
                                 oLtQ current.macd_diff 0)
  let short_macd_cross := b2q (oLt current.macd current.macd_signal &&
                               oGe previous.macd previous.macd_signal)
  short_trend_alignment * (2/10) +
  short_price_below_ema * (15/100) +
  short_price_below_fast * (15/100) +
  short_ema_gap * (15/100) +
  short_ema_cross * (15/100) +
  short_macd_bearish * (1/10) +
  short_macd_cross * (1/10)

/-- Short trend score including the momentum confirmation applied when
`len(df) >= 4`. -/
def trendScoreShort (s : SessionAwareStrategy) (f : Frame) : ℚ :=
  let base := trendScoreShortBase s f
  if 4 ≤ f.len then
    let trend_momentum_short := b2q (oLt f.current.close f.prev3.close)
    let ema_momentum_short := b2q (oLt f.current.ema_fast f.prev2.ema_fast)
    base * (75/100) + (trend_momentum_short * (125/1000) + ema_momentum_short * (125/1000))
  else base

/-- Short mean reversion score before the volume blend. -/
def mrScoreShortBase (f : Frame) (p : SessionParams) : ℚ :=
  let current := f.current
  let previous := f.previous
  let short_bb_overbought := b2q (oGtQ current.bb_position (75/100))
  let short_bb_drop := b2q (oLt current.close previous.close &&
                            oGt previous.close f.prev2.close)
  let short_rsi_overbought := b2q (oGtQ current.rsi p.rsi_overbought)
  let short_above_bb := b2q (oGt current.close current.bb_upper)
  short_bb_overbought * (25/100) +
  short_bb_drop * (35/100) +
  short_rsi_overbought * (2/10) +
  short_above_bb * (2/10)

/-- Short mean reversion score after the 0.8/0.2 volume blend. -/
def mrScoreShort (f : Frame) (p : SessionParams) : ℚ :=
  mrScoreShortBase f p * (8/10) + volumeSurge f * (2/10)

/-- SessionAwareStrategy.calculate_signal_strength: combined long and short
signal strengths. -/
def calculate_signal_strength (s : SessionAwareStrategy) (f : Frame)
    (p : SessionParams) : ℚ × ℚ :=
  (trendScoreLong s f * p.trend_bias + mrScoreLong f p * p.mean_reversion_bias,
   trendScoreShort s f * p.trend_bias + mrScoreShort f p * p.mean_reversion_bias)

/-- Signal tag returned by get_signal (the accompanying metadata dictionary
carries no decision content and is omitted). -/
inductive Signal where
  | BUY
  | SELL
  | HOLD
deriving DecidableEq, Repr

/-- BUY branch condition of get_signal: strength over threshold, volume
check, RSI safety filter. -/
def buyCondB (s : SessionAwareStrategy) (f : Frame) (p : SessionParams) : Bool :=
  decide (s.signal_threshold < (calculate_signal_strength s f p).1) &&
  oGtQ f.current.volume_ratio p.min_volume_mult &&
  oLtQ f.current.rsi p.rsi_overbought

/-- SELL branch condition of get_signal: strength over threshold, volume
check, RSI safety filter. -/
def sellCondB (s : SessionAwareStrategy) (f : Frame) (p : SessionParams) : Bool :=
  decide (s.signal_threshold < (calculate_signal_strength s f p).2) &&
  oGtQ f.current.volume_ratio p.min_volume_mult &&
  oGtQ f.current.rsi p.rsi_oversold

/-- SessionAwareStrategy.get_signal on an indicator-augmented frame:
length guard, session lookup from the current row timestamp, NaN guard on
the three critical indicators, then the BUY / SELL / HOLD decision. -/
def get_signal (s : SessionAwareStrategy) (f : Frame) : Signal :=
  if f.len < max s.ema_slow (max s.bb_period s.volume_ma_period) then .HOLD
  else
    let p := get_session_parameters s (get_session f.current.hour)
    if f.current.ema_fast.isNone || f.current.ema_slow.isNone ||
       f.current.rsi.isNone then .HOLD
    else if buyCondB s f p then .BUY
    else if sellCondB s f p then .SELL
    else .HOLD

/-- Order side in the Bybit format used throughout bot.py. -/
inductive Side where
  | Buy
  | Sell
deriving DecidableEq, Repr

/-- Python round(x, 8): rounding to 8 decimal places.  Exact halves differ
(Python rounds the underlying binary double half-to-even; here half-up);
no half-ulp tie is exercised anywhere in this development. -/
def round8 (x : ℚ) : ℚ := (round (x * 10 ^ 8) : ℤ) / 10 ^ 8

/-- Dictionary returned by SessionAwareStrategy.calculate_tp_sl. -/
structure TpSlResult where
  tp_price : ℚ
  sl_price : ℚ
  tp_percent : ℚ
  sl_percent : ℚ
  session : Session
  atr_multiplier : ℚ
deriving DecidableEq, Repr

/-- Session-dependent reward multiple of calculate_tp_sl: asian 1:1.5,
european 1:2.0, us 1:2.5. -/
def session_reward_multiple : Session → ℚ
  | .asian => 3/2
  | .european => 2
  | .us => 5/2

/-- Percentage selection of calculate_tp_sl, as (sl_pct, tp_pct): the
ATR-scaled pair when atr_pct is provided and neither percentage override
is, otherwise the provided overrides or the fixed 2.5 / 5.0 defaults. -/
def tp_sl_percentages (atr_multiplier : ℚ) (session : Session) :
    Option ℚ → Option ℚ → Option ℚ → ℚ × ℚ
  | some a, none, none =>
    (a * atr_multiplier * 100,
     a * atr_multiplier * 100 * session_reward_multiple session)
  | _, tp_percent, sl_percent => (sl_percent.getD (5/2), tp_percent.getD 5)

/-- SessionAwareStrategy.calculate_tp_sl.  The Python session argument
defaults to the wall-clock session when omitted; that path is out of scope
and the session is passed explicitly here. -/
def SessionAwareStrategy.calculate_tp_sl (s : SessionAwareStrategy)
    (entry_price : ℚ) (side : Side) (atr_pct : Option ℚ) (session : Session)
    (tp_percent sl_percent : Option ℚ) : TpSlResult :=
  let p := get_session_parameters s session
  let atr_multiplier := p.atr_multiplier
  let pcts := tp_sl_percentages atr_multiplier session atr_pct tp_percent
                sl_percent
  let sl_pct := pcts.1
  let tp_pct := pcts.2
  match side with
  | .Buy =>
    { tp_price := round8 (entry_price * (1 + tp_pct / 100))
      sl_price := round8 (entry_price * (1 - sl_pct / 100))
      tp_percent := tp_pct
      sl_percent := sl_pct
      session := session
      atr_multiplier := atr_multiplier }
  | .Sell =>
    { tp_price := round8 (entry_price * (1 - tp_pct / 100))
      sl_price := round8 (entry_price * (1 + sl_pct / 100))
      tp_percent := tp_pct
      sl_percent := sl_pct
      session := session
      atr_multiplier := atr_multiplier }

/-- Dictionary returned by the fixed-percentage TP/SL calculators. -/
structure TpSlFixed where
  tp_price : ℚ
  sl_price : ℚ
  tp_percent : ℚ
  sl_percent : ℚ
deriving DecidableEq, Repr

/-- MAStrategy.calculate_tp_sl: fixed percentage offsets from entry,
rounded to 8 decimal places. -/
def MAStrategy.calculate_tp_sl (entry_price : ℚ) (side : Side)
    (tp_percent sl_percent : ℚ) : TpSlFixed :=
  match side with
  | .Buy =>
    { tp_price := round8 (entry_price * (1 + tp_percent / 100))
      sl_price := round8 (entry_price * (1 - sl_percent / 100))
      tp_percent := tp_percent
      sl_percent := sl_percent }
  | .Sell =>
    { tp_price := round8 (entry_price * (1 - tp_percent / 100))
      sl_price := round8 (entry_price * (1 + sl_percent / 100))
      tp_percent := tp_percent
      sl_percent := sl_percent }

/-- TradingBot stop loss fraction (2.5 percent, set in __init__). -/
def TradingBot.stop_loss_pct : ℚ := 25/1000

/-- TradingBot take profit fraction (5.0 percent, set in __init__). -/
def TradingBot.take_profit_pct : ℚ := 5/100

/-- TradingBot.calculate_fixed_tp_sl. -/
def TradingBot.calculate_fixed_tp_sl (entry_price : ℚ) (side : Side) : TpSlFixed :=
  match side with
  | .Buy =>
    { tp_price := round8 (entry_price * (1 + TradingBot.take_profit_pct))
      sl_price := round8 (entry_price * (1 - TradingBot.stop_loss_pct))
      tp_percent := TradingBot.take_profit_pct * 100
      sl_percent := TradingBot.stop_loss_pct * 100 }
  | .Sell =>
    { tp_price := round8 (entry_price * (1 - TradingBot.take_profit_pct))
      sl_price := round8 (entry_price * (1 + TradingBot.stop_loss_pct))
      tp_percent := TradingBot.take_profit_pct * 100
      sl_percent := TradingBot.stop_loss_pct * 100 }

/-- Per-symbol entry of the in-memory positions dictionary of TradingBot.
The raw exchange snapshot and fields only used for notification content
(size, pnl) are not modelled. -/
structure Position where
  entry_price : ℚ
  side : Side
  tp_price : ℚ
  sl_price : ℚ
deriving DecidableEq, Repr

/-- The TradingBot.positions dictionary: an association list keyed by
symbol.  The dictionary itself has at most one entry per key; this is the
invariant the claims examine. -/
abbrev Ledger := List (String × Position)

/-- Dictionary deletion, del positions[symbol]. -/
def ledgerErase (ps : Ledger) (symbol : String) : Ledger :=
  ps.filter (fun kv => !(kv.1 == symbol))

/-- Ledger effect of TradingBot.close_position_coin: return untouched when
the symbol has no entry, otherwise delete the entry (the exchange call and
notification between the two lock sections carry no ledger effect). -/
def close_position_coin (ps : Ledger) (symbol : String) : Ledger :=
  match ps.lookup symbol with
  | none => ps
  | some _ => ledgerErase ps symbol

/-- TP/SL trigger block of TradingBot.monitor_position_coin: the reason
string when the side-specific trigger fires at the current price. -/
def monitorCloseReason (side : Side) (current_price tp_price sl_price : ℚ) :
    Option String :=
  match side with
  | .Buy =>
    if current_price ≥ tp_price then some "Take Profit hit"
    else if current_price ≤ sl_price then some "Stop Loss hit"
    else none
  | .Sell =>
    if current_price ≤ tp_price then some "Take Profit hit"
    else if current_price ≥ sl_price then some "Stop Loss hit"
    else none

/-- Ledger effect of TradingBot.monitor_position_coin at a given current
price: no entry means no change; otherwise close exactly when the TP/SL
trigger fires. -/
def monitor_position_coin (ps : Ledger) (symbol : String)
    (current_price : ℚ) : Ledger :=
  match ps.lookup symbol with
  | none => ps
  | some pos =>
    match monitorCloseReason pos.side current_price pos.tp_price pos.sl_price with
    | some _ => close_position_coin ps symbol
    | none => ps

/-- Ledger effect of TradingBot.execute_trade_coin: skip when an entry for
the symbol exists, otherwise store the new position entry (sequential
composition of the membership guard and the later dictionary store). -/
def execute_trade_open (ps : Ledger) (symbol : String) (pos : Position) :
    Ledger :=
  if (ps.lookup symbol).isSome then ps
  else (symbol, pos) :: ps

/-- Floor quantisation to a step: math.floor(q / step) * step. -/
def floorToStep (q step : ℚ) : ℚ := ⌊q / step⌋ * step

/-- Ceiling quantisation to a step: math.ceil(q / step) * step. -/
def ceilToStep (q step : ℚ) : ℚ := ⌈q / step⌉ * step

/-- Python f-string rounding to d decimal places (ties as in round8). -/
def roundToDecimals (d : ℕ) (x : ℚ) : ℚ := (round (x * 10 ^ d) : ℤ) / 10 ^ d

/-- Python int() truncation toward zero, as a rational. -/
def truncQ (q : ℚ) : ℚ := if q < 0 then -(⌊-q⌋ : ℤ) else (⌊q⌋ : ℤ)

/-- Quantity formatting block of execute_trade_coin: the numeric value of
the decimal string sent to the exchange, with precision chosen from
qty_step. -/
def formatQty (q qty_step : ℚ) : ℚ :=
  if 1 ≤ qty_step then truncQ q
  else if 1/10 ≤ qty_step then roundToDecimals 1 q
  else if 1/100 ≤ qty_step then roundToDecimals 2 q
  else if 1/1000 ≤ qty_step then roundToDecimals 3 q
  else roundToDecimals 8 q

/-- Sizing stage of execute_trade_coin before quantisation: raw quantity
from balance, raised to meet the minimum order value and then the minimum
quantity.  Models the successful balance-read path. -/
def sizeAfterMins (available_balance position_size_pct leverage entry_price
    min_qty min_order_value : ℚ) : ℚ :=
  let position_value := available_balance * position_size_pct * leverage
  let calculated_qty := position_value / entry_price
  let min_qty_by_value := min_order_value / entry_price
  let q1 := if calculated_qty < min_qty_by_value then min_qty_by_value
            else calculated_qty
  if q1 < min_qty then min_qty else q1

/-- Quantisation stage of execute_trade_coin: floor to qty_step, re-raise
to min_qty, and quantise upward when the floored value lost the minimum
order value. -/
def sizeQuantized (available_balance position_size_pct leverage entry_price
    min_qty qty_step min_order_value : ℚ) : ℚ :=
  let q2 := sizeAfterMins available_balance position_size_pct leverage
              entry_price min_qty min_order_value
  if 0 < qty_step then
    let qf0 := floorToStep q2 qty_step
    let qf := if qf0 < min_qty then min_qty else qf0
    if qf * entry_price < min_order_value then
      ceilToStep (min_order_value / entry_price) qty_step
    else qf
  else q2

/-- Order sizing pipeline of TradingBot.execute_trade_coin, ending with the
final order-value verification that raises when the formatted quantity is
still below the minimum order value. -/
def execute_trade_size (available_balance position_size_pct leverage
    entry_price min_qty qty_step min_order_value : ℚ) : Except String ℚ :=
  let q3 := sizeQuantized available_balance position_size_pct leverage
              entry_price min_qty qty_step min_order_value
  let qty := formatQty q3 qty_step
  if qty * entry_price < min_order_value then
    Except.error "Order value is below minimum"
  else Except.ok qty

/-- The BUY branch condition of get_signal, stated as a proposition:
long strength strictly over the signal threshold, current volume ratio
strictly over the session minimum volume multiplier, current RSI strictly
under the session overbought threshold. -/
def buySignalProp (s : SessionAwareStrategy) (f : Frame) (p : SessionParams) :
    Prop :=
  s.signal_threshold < (calculate_signal_strength s f p).1 ∧
  oGtQ f.current.volume_ratio p.min_volume_mult = true ∧
  oLtQ f.current.rsi p.rsi_overbought = true

/-- The SELL branch condition of get_signal, stated as a proposition:
short strength strictly over the signal threshold, current volume ratio
strictly over the session minimum volume multiplier, current RSI strictly
over the session oversold threshold. -/
def sellSignalProp (s : SessionAwareStrategy) (f : Frame) (p : SessionParams) :
    Prop :=
  s.signal_threshold < (calculate_signal_strength s f p).2 ∧
  oGtQ f.current.volume_ratio p.min_volume_mult = true ∧
  oGtQ f.current.rsi p.rsi_oversold = true

/-! Concrete inputs used by the theorems below. -/

/-- Current row of a bullish US-session frame whose bb_position column is
NaN while the three critical indicators are defined. -/
def exRowCur : Row :=
  { close := some 110, ema_fast := some 101, ema_medium := some 100,
    ema_slow := some 98, rsi := some 55, bb_position := none,
    bb_upper := some 120, bb_lower := some 90,
    macd := some 2, macd_signal := some 1, macd_diff := some 1,
    volume_ratio := some (9/5), atr_pct := some (1/100), hour := 18 }

/-- Row iloc[-2] of the bullish frame. -/
def exRowPrev : Row :=
  { close := some 105, ema_fast := some 99, ema_medium := some 100,
    macd := some (1/2), macd_signal := some 1 }

/-- Row iloc[-3] of the bullish frame. -/
def exRowPrev2 : Row := { close := some 107, ema_fast := some 95 }

/-- Row iloc[-4] of the bullish frame. -/
def exRowPrev3 : Row := { close := some 100 }

/-- A 200-candle frame with an undefined bb_position on the current row
and every other consulted indicator defined and bullish. -/
def exFrame2 : Frame :=
  { len := 200, current := exRowCur, previous := exRowPrev,
    prev2 := exRowPrev2, prev3 := exRowPrev3 }

/-- The bullish frame with every consulted indicator defined. -/
def wFrame : Frame :=
  { exFrame2 with current := { exRowCur with bb_position := some (19/20) } }

/-- A frame whose current row lacks the RSI value. -/
def holdFrame : Frame :=
  { len := 200,
    current := { close := some 100, ema_fast := some 101, ema_slow := some 98,
                 rsi := none },
    previous := {}, prev2 := {}, prev3 := {} }

/-- A one-position ledger holding an open Buy position on BTCUSDT. -/
def exLedger : Ledger :=
  [("BTCUSDT", { entry_price := 100, side := Side.Buy,
                 tp_price := 105, sl_price := 95 })]

/-! Theorems. -/

/-- Values of float(cond) lie in {0, 1}, hence in [0, 1]. -/
theorem b2q_bounds (b : Bool) : 0 ≤ b2q b ∧ b2q b ≤ 1 := by
  cases b <;> norm_num [b2q]

/-- The long trend score before momentum adjustment lies in [0, 1]. -/
theorem trendScoreLongBase_bounds (s : SessionAwareStrategy) (f : Frame) :
    0 ≤ trendScoreLongBase s f ∧ trendScoreLongBase s f ≤ 1 := by
  simp only [trendScoreLongBase, b2q]
  split_ifs <;> norm_num

/-- The long trend score lies in [0, 1]. -/
theorem trendScoreLong_bounds (s : SessionAwareStrategy) (f : Frame) :
    0 ≤ trendScoreLong s f ∧ trendScoreLong s f ≤ 1 := by
  obtain ⟨h1, h2⟩ := trendScoreLongBase_bounds s f
  simp only [trendScoreLong]
  split
  · obtain ⟨h3, h4⟩ := b2q_bounds (oGt f.current.close f.prev3.close)
    obtain ⟨h5, h6⟩ := b2q_bounds (oGt f.current.ema_fast f.prev2.ema_fast)
    constructor <;> nlinarith
  · exact ⟨h1, h2⟩

/-- The long mean reversion score before the volume blend lies in [0, 1]. -/
theorem mrScoreLongBase_bounds (f : Frame) (p : SessionParams) :
    0 ≤ mrScoreLongBase f p ∧ mrScoreLongBase f p ≤ 1 := by
  simp only [mrScoreLongBase, b2q]
  split_ifs <;> norm_num

/-- The long mean reversion score lies in [0, 1]. -/
theorem mrScoreLong_bounds (f : Frame) (p : SessionParams) :
    0 ≤ mrScoreLong f p ∧ mrScoreLong f p ≤ 1 := by
  obtain ⟨h1, h2⟩ := mrScoreLongBase_bounds f p
  obtain ⟨h3, h4⟩ := b2q_bounds (oGtQ f.current.volume_ratio (3/2))
  simp only [mrScoreLong, volumeSurge]
  constructor <;> nlinarith

/-- The short trend score before momentum adjustment lies in [0, 1]. -/
theorem trendScoreShortBase_bounds (s : SessionAwareStrategy) (f : Frame) :
    0 ≤ trendScoreShortBase s f ∧ trendScoreShortBase s f ≤ 1 := by
  simp only [trendScoreShortBase, b2q]
  split_ifs <;> norm_num

/-- The short trend score lies in [0, 1]. -/
theorem trendScoreShort_bounds (s : SessionAwareStrategy) (f : Frame) :
    0 ≤ trendScoreShort s f ∧ trendScoreShort s f ≤ 1 := by
  obtain ⟨h1, h2⟩ := trendScoreShortBase_bounds s f
  simp only [trendScoreShort]
  split
  · obtain ⟨h3, h4⟩ := b2q_bounds (oLt f.current.close f.prev3.close)
    obtain ⟨h5, h6⟩ := b2q_bounds (oLt f.current.ema_fast f.prev2.ema_fast)
    constructor <;> nlinarith
  · exact ⟨h1, h2⟩

/-- The short mean reversion score before the volume blend lies in [0, 1]. -/
theorem mrScoreShortBase_bounds (f : Frame) (p : SessionParams) :
    0 ≤ mrScoreShortBase f p ∧ mrScoreShortBase f p ≤ 1 := by
  simp only [mrScoreShortBase, b2q]
  split_ifs <;> norm_num

/-- The short mean reversion score lies in [0, 1]. -/
theorem mrScoreShort_bounds (f : Frame) (p : SessionParams) :
    0 ≤ mrScoreShort f p ∧ mrScoreShort f p ≤ 1 := by
  obtain ⟨h1, h2⟩ := mrScoreShortBase_bounds f p
  obtain ⟨h3, h4⟩ := b2q_bounds (oGtQ f.current.volume_ratio (3/2))
  simp only [mrScoreShort, volumeSurge]
  constructor <;> nlinarith

/-- Both strengths lie in [0, 1] whenever the session biases are
nonnegative and sum to one. -/
theorem strength_bounds_aux (s : SessionAwareStrategy) (f : Frame)
    (p : SessionParams) (h1 : 0 ≤ p.trend_bias)
    (h2 : 0 ≤ p.mean_reversion_bias)
    (h3 : p.trend_bias + p.mean_reversion_bias = 1) :
    0 ≤ (calculate_signal_strength s f p).1 ∧
    (calculate_signal_strength s f p).1 ≤ 1 ∧
    0 ≤ (calculate_signal_strength s f p).2 ∧
    (calculate_signal_strength s f p).2 ≤ 1 := by
  obtain ⟨t1, t2⟩ := trendScoreLong_bounds s f
  obtain ⟨m1, m2⟩ := mrScoreLong_bounds f p
  obtain ⟨u1, u2⟩ := trendScoreShort_bounds s f
  obtain ⟨v1, v2⟩ := mrScoreShort_bounds f p
  unfold calculate_signal_strength
  dsimp only
  refine ⟨?_, ?_, ?_, ?_⟩ <;> nlinarith

/-- The boolean BUY condition coincides with its propositional statement. -/
theorem buyCondB_iff (s : SessionAwareStrategy) (f : Frame) (p : SessionParams) :
    buyCondB s f p = true ↔ buySignalProp s f p := by
  simp [buyCondB, buySignalProp, Bool.and_eq_true, decide_eq_true_eq, and_assoc]

/-- The boolean SELL condition coincides with its propositional statement. -/
theorem sellCondB_iff (s : SessionAwareStrategy) (f : Frame) (p : SessionParams) :
    sellCondB s f p = true ↔ sellSignalProp s f p := by
  simp [sellCondB, sellSignalProp, Bool.and_eq_true, decide_eq_true_eq, and_assoc]

/-- Under the length guard and defined critical indicators, get_signal is
the two-branch decision between the BUY and SELL conditions. -/
theorem get_signal_eq (s : SessionAwareStrategy) (f : Frame)
    (hlen : ¬ f.len < max s.ema_slow (max s.bb_period s.volume_ma_period))
    (hef : f.current.ema_fast.isSome = true)
    (hes : f.current.ema_slow.isSome = true)
    (hrsi : f.current.rsi.isSome = true) :
    get_signal s f =
      (if buyCondB s f (get_session_parameters s (get_session f.current.hour))
       then Signal.BUY
       else if sellCondB s f (get_session_parameters s (get_session f.current.hour))
       then Signal.SELL
       else Signal.HOLD) := by
  have h1 : f.current.ema_fast.isNone = false := by
    cases h : f.current.ema_fast <;> simp_all [Option.isNone, Option.isSome]
  have h2 : f.current.ema_slow.isNone = false := by
    cases h : f.current.ema_slow <;> simp_all [Option.isNone, Option.isSome]
  have h3 : f.current.rsi.isNone = false := by
    cases h : f.current.rsi <;> simp_all [Option.isNone, Option.isSome]
  simp only [get_signal, if_neg hlen, h1, h2, h3, Bool.or_self, Bool.or_false,
    Bool.false_eq_true, if_false]

/-- C1.  For every candle frame passing the length and defined-indicator
preconditions, get_signal emits BUY iff the long strength strictly exceeds
the signal threshold (0.70 for the default strategy, last conjunct) and
the current volume ratio strictly exceeds the session minimum volume
multiplier and the current RSI is strictly below the session overbought
threshold; it emits SELL iff the mirrored condition holds and the BUY
condition does not; otherwise it emits HOLD; when both conditions hold,
BUY takes precedence. -/
theorem spec_c1 (s : SessionAwareStrategy) (f : Frame)
    (hlen : ¬ f.len < max s.ema_slow (max s.bb_period s.volume_ma_period))
    (hef : f.current.ema_fast.isSome = true)
    (hes : f.current.ema_slow.isSome = true)
    (hrsi : f.current.rsi.isSome = true) :
    (get_signal s f = Signal.BUY ↔
      buySignalProp s f (get_session_parameters s (get_session f.current.hour))) ∧
    (get_signal s f = Signal.SELL ↔
      sellSignalProp s f (get_session_parameters s (get_session f.current.hour)) ∧
      ¬ buySignalProp s f (get_session_parameters s (get_session f.current.hour))) ∧
    (get_signal s f = Signal.HOLD ↔
      ¬ buySignalProp s f (get_session_parameters s (get_session f.current.hour)) ∧
      ¬ (sellSignalProp s f (get_session_parameters s (get_session f.current.hour)) ∧
         ¬ buySignalProp s f (get_session_parameters s (get_session f.current.hour)))) ∧
    SessionAwareStrategy.default.signal_threshold = 0.70 := by
  have hthr : SessionAwareStrategy.default.signal_threshold = 0.70 := by
    norm_num [SessionAwareStrategy.default]
  rw [get_signal_eq s f hlen hef hes hrsi]
  rw [← buyCondB_iff, ← sellCondB_iff]
  cases hb : buyCondB s f (get_session_parameters s (get_session f.current.hour)) <;>
    cases hs : sellCondB s f (get_session_parameters s (get_session f.current.hour)) <;>
    simp [hthr]

/-- C1 witness: a concrete 200-candle bullish US-session frame on which
the theorem yields a BUY signal. -/
theorem spec_c1_witness :
    get_signal SessionAwareStrategy.default wFrame = Signal.BUY := by
  refine (spec_c1 SessionAwareStrategy.default wFrame (by decide) rfl rfl rfl).1.mpr
    ⟨?_, ?_, ?_⟩ <;>
  norm_num [buySignalProp, calculate_signal_strength, trendScoreLong,
    trendScoreLongBase, mrScoreLong, mrScoreLongBase, volumeSurge, b2q,
    oGt, oLt, oLe, oGtQ, oLtQ, oDiv, oSub, get_session_parameters,
    get_session, SessionAwareStrategy.default, wFrame, exFrame2, exRowCur,
    exRowPrev, exRowPrev2, exRowPrev3]

/-- C2 counterexample: a frame whose bb_position indicator is undefined on
the current candle, on which get_signal nevertheless emits BUY rather
than HOLD. -/
theorem spec_c2_counterexample :
    exFrame2.current.bb_position = none ∧
    get_signal SessionAwareStrategy.default exFrame2 = Signal.BUY := by
  refine ⟨rfl, ?_⟩
  norm_num [get_signal, buyCondB, sellCondB, calculate_signal_strength,
    trendScoreLong, trendScoreLongBase, mrScoreLong, mrScoreLongBase,
    trendScoreShort, trendScoreShortBase, mrScoreShort, mrScoreShortBase,
    volumeSurge, b2q, oGt, oLt, oLe, oGe, oGtQ, oLtQ, oDiv, oSub,
    get_session, get_session_parameters, SessionAwareStrategy.default,
    exFrame2, exRowCur, exRowPrev, exRowPrev2, exRowPrev3]

/-- C2 (amended).  get_signal returns HOLD when any of the three critical
indicators checked by the code (fast EMA, slow EMA, RSI) is undefined on
the current candle; an undefined value of any other indicator column does
not force HOLD but makes each boolean condition consulting it false, so
it contributes zero weight to the scores. -/
theorem spec_c2 (s : SessionAwareStrategy) (f : Frame)
    (h : f.current.ema_fast = none ∨ f.current.ema_slow = none ∨
         f.current.rsi = none) :
    get_signal s f = Signal.HOLD := by
  unfold get_signal
  split
  · rfl
  · have hb : (f.current.ema_fast.isNone || f.current.ema_slow.isNone ||
               f.current.rsi.isNone) = true := by
      rcases h with h | h | h <;> simp [h]
    simp [hb]

/-- C2 witness: a frame lacking the RSI value on the current candle is
held. -/
theorem spec_c2_witness :
    get_signal SessionAwareStrategy.default holdFrame = Signal.HOLD :=
  spec_c2 SessionAwareStrategy.default holdFrame (Or.inr (Or.inr rfl))

/-- C6.  For every indicator frame and every session, both the long and
the short strength returned by calculate_signal_strength lie in the
closed interval [0, 1]. -/
theorem spec_c6 (s : SessionAwareStrategy) (f : Frame) (session : Session) :
    0 ≤ (calculate_signal_strength s f (get_session_parameters s session)).1 ∧
    (calculate_signal_strength s f (get_session_parameters s session)).1 ≤ 1 ∧
    0 ≤ (calculate_signal_strength s f (get_session_parameters s session)).2 ∧
    (calculate_signal_strength s f (get_session_parameters s session)).2 ≤ 1 := by
  cases session <;>
    exact strength_bounds_aux s f _ (by norm_num [get_session_parameters])
      (by norm_num [get_session_parameters]) (by norm_num [get_session_parameters])

/-- C9.  For every session, the trend bias and the mean reversion bias of
the session parameter lookup sum to exactly 1. -/
theorem spec_c9 (s : SessionAwareStrategy) (session : Session) :
    (get_session_parameters s session).trend_bias +
    (get_session_parameters s session).mean_reversion_bias = 1 := by
  cases session <;> norm_num [get_session_parameters]

/-- C4.  The close check of monitor_position_coin triggers exactly per
side whenever the stop is on the loss side of the target: a Buy position
closes with Take Profit iff the price reached tp_price and with Stop Loss
iff it fell to sl_price, a Sell position mirrored; no close event is
produced strictly between the two levels; and a price exactly equal to
tp_price (respectively sl_price) of a Buy yields Take Profit
(respectively Stop Loss). -/
theorem spec_c4 (price tp sl price2 tp2 sl2 : ℚ) (hbuy : sl < tp)
    (hsell : tp2 < sl2) :
    (monitorCloseReason Side.Buy price tp sl = some "Take Profit hit" ↔
      tp ≤ price) ∧
    (monitorCloseReason Side.Buy price tp sl = some "Stop Loss hit" ↔
      price ≤ sl) ∧
    (monitorCloseReason Side.Buy price tp sl = none ↔
      sl < price ∧ price < tp) ∧
    (monitorCloseReason Side.Sell price2 tp2 sl2 = some "Take Profit hit" ↔
      price2 ≤ tp2) ∧
    (monitorCloseReason Side.Sell price2 tp2 sl2 = some "Stop Loss hit" ↔
      sl2 ≤ price2) ∧
    (monitorCloseReason Side.Sell price2 tp2 sl2 = none ↔
      tp2 < price2 ∧ price2 < sl2) ∧
    monitorCloseReason Side.Buy tp tp sl = some "Take Profit hit" ∧
    monitorCloseReason Side.Buy sl tp sl = some "Stop Loss hit" := by
  refine ⟨?_, ?_, ?_, ?_, ?_, ?_, ?_, ?_⟩ <;>
    simp only [monitorCloseReason, ge_iff_le] <;>
    split_ifs <;>
    simp_all <;>
    linarith

/-- C4 witness: concrete Buy levels tp = 105, sl = 95 with the price at
each level. -/
theorem spec_c4_witness :
    monitorCloseReason Side.Buy 105 105 95 = some "Take Profit hit" ∧
    monitorCloseReason Side.Buy 95 105 95 = some "Stop Loss hit" := by
  have h := spec_c4 100 105 95 100 95 105 (by norm_num) (by norm_num)
  exact ⟨h.2.2.2.2.2.2.1, h.2.2.2.2.2.2.2⟩

/-- C10.  The per-symbol monitor check leaves the whole position mapping
unchanged when the symbol has no entry, and also when its entry has a
side-specific trigger that does not fire at the current price. -/
theorem spec_c10 (ps : Ledger) (symbol : String) (price : ℚ) :
    (ps.lookup symbol = none → monitor_position_coin ps symbol price = ps) ∧
    (∀ pos : Position, ps.lookup symbol = some pos → pos.side = Side.Buy →
      pos.sl_price < price → price < pos.tp_price →
      monitor_position_coin ps symbol price = ps) ∧
    (∀ pos : Position, ps.lookup symbol = some pos → pos.side = Side.Sell →
      pos.tp_price < price → price < pos.sl_price →
      monitor_position_coin ps symbol price = ps) := by
  refine ⟨?_, ?_, ?_⟩
  · intro h
    simp only [monitor_position_coin, h]
  · intro pos h hside h1 h2
    have hr : monitorCloseReason pos.side price pos.tp_price pos.sl_price =
        none := by
      rw [hside]
      simp only [monitorCloseReason]
      rw [if_neg (by simp only [ge_iff_le, not_le]; linarith),
          if_neg (by simp only [not_le]; linarith)]
    simp only [monitor_position_coin, h, hr]
  · intro pos h hside h1 h2
    have hr : monitorCloseReason pos.side price pos.tp_price pos.sl_price =
        none := by
      rw [hside]
      simp only [monitorCloseReason]
      rw [if_neg (by simp only [not_le]; linarith),
          if_neg (by simp only [ge_iff_le, not_le]; linarith)]
    simp only [monitor_position_coin, h, hr]

/-- C10 witness: monitoring the one-position ledger at a price strictly
between the stop and the target changes nothing, and monitoring a symbol
with no entry changes nothing. -/
theorem spec_c10_witness :
    monitor_position_coin exLedger "BTCUSDT" 100 = exLedger ∧
    monitor_position_coin exLedger "ETHUSDT" 100 = exLedger := by
  constructor
  · exact (spec_c10 exLedger "BTCUSDT" 100).2.1
      { entry_price := 100, side := Side.Buy, tp_price := 105, sl_price := 95 }
      (by simp [exLedger]) rfl (by norm_num) (by norm_num)
  · exact (spec_c10 exLedger "ETHUSDT" 100).1 (by simp [exLedger])

/-- A symbol that lookup does not find is not among the ledger keys. -/
theorem lookup_none_not_mem (ps : Ledger) (symbol : String)
    (h : ps.lookup symbol = none) : symbol ∉ ps.map Prod.fst := by
  induction ps with
  | nil => simp
  | cons kv rest ih =>
    rcases kv with ⟨k, v⟩
    by_cases hk : k = symbol
    · subst hk
      simp [List.lookup] at h
    · have hkb : (symbol == k) = false :=
        beq_eq_false_iff_ne.mpr fun hh => hk hh.symm
      simp only [List.lookup, hkb] at h
      simp only [List.map_cons, List.mem_cons]
      rintro (rfl | hmem)
      · exact hk rfl
      · exact ih h hmem

/-- C5.  Opening a position for a symbol that already has a ledger entry
is a no-op leaving the whole mapping (in particular the existing entry)
unchanged, and the open operation preserves distinctness of the ledger
keys, so the mapping holds at most one position per symbol. -/
theorem spec_c5 (ps : Ledger) (symbol : String) (pos0 pos : Position) :
    (ps.lookup symbol = some pos0 →
      execute_trade_open ps symbol pos = ps ∧
      (execute_trade_open ps symbol pos).lookup symbol = some pos0) ∧
    ((ps.map Prod.fst).Nodup →
      ((execute_trade_open ps symbol pos).map Prod.fst).Nodup) := by
  constructor
  · intro h
    have hs : (ps.lookup symbol).isSome = true := by rw [h]; rfl
    unfold execute_trade_open
    rw [if_pos hs]
    exact ⟨rfl, h⟩
  · intro hnd
    unfold execute_trade_open
    by_cases hs : (ps.lookup symbol).isSome = true
    · rw [if_pos hs]
      exact hnd
    · rw [if_neg hs]
      have hnone : ps.lookup symbol = none := by
        cases hx : ps.lookup symbol
        · rfl
        · rw [hx] at hs
          simp at hs
      simp only [List.map_cons, List.nodup_cons]
      exact ⟨lookup_none_not_mem ps symbol hnone, hnd⟩

/-- C5 witness: re-opening BTCUSDT on the one-position ledger is a no-op
with the stored entry intact, and opening a fresh symbol keeps the keys
distinct. -/
theorem spec_c5_witness :
    execute_trade_open exLedger "BTCUSDT"
      { entry_price := 50, side := Side.Sell, tp_price := 49, sl_price := 52 } =
      exLedger ∧
    ((execute_trade_open exLedger "ETHUSDT"
      { entry_price := 50, side := Side.Sell, tp_price := 49, sl_price := 52 }).map
        Prod.fst).Nodup := by
  constructor
  · exact ((spec_c5 exLedger "BTCUSDT"
      { entry_price := 100, side := Side.Buy, tp_price := 105, sl_price := 95 }
      { entry_price := 50, side := Side.Sell, tp_price := 49, sl_price := 52 }).1
      (by simp [exLedger])).1
  · exact (spec_c5 exLedger "ETHUSDT"
      { entry_price := 100, side := Side.Buy, tp_price := 105, sl_price := 95 }
      { entry_price := 50, side := Side.Sell, tp_price := 49, sl_price := 52 }).2
      (by simp [exLedger])

/-- Evaluation rule for round8 at arguments that scale to an integer. -/
theorem round8_eq_val (x : ℚ) (n : ℤ) (hx : x * 10 ^ 8 = (n : ℚ)) (v : ℚ)
    (hv : (n : ℚ) / 10 ^ 8 = v) : round8 x = v := by
  rw [round8, hx]
  rw [show ((n : ℚ) = ((n : ℤ) : ℚ)) from rfl, round_intCast]
  exact hv

/-- C7.  With an ATR value and no overrides, calculate_tp_sl sets the
stop-loss percentage to atr_pct times the session ATR multiplier times
100 and the take-profit percentage to the stop-loss percentage times the
session reward multiple (asian 1.5, european 2.0, us 2.5); without an ATR
value it falls back to the fixed 2.5 / 5.0 defaults; and the concrete
european Buy scenario at entry 100 with atr_pct 0.01 yields sl_price 98.5
and tp_price 103. -/
theorem spec_c7 (entry a : ℚ) (side : Side) (session : Session)
    (hentry : 0 < entry) :
    ((SessionAwareStrategy.default.calculate_tp_sl entry side (some a) session
        none none).sl_percent =
      a * (get_session_parameters SessionAwareStrategy.default
            session).atr_multiplier * 100) ∧
    (session = Session.asian →
      (SessionAwareStrategy.default.calculate_tp_sl entry side (some a) session
          none none).tp_percent =
        (SessionAwareStrategy.default.calculate_tp_sl entry side (some a) session
          none none).sl_percent * 1.5) ∧
    (session = Session.european →
      (SessionAwareStrategy.default.calculate_tp_sl entry side (some a) session
          none none).tp_percent =
        (SessionAwareStrategy.default.calculate_tp_sl entry side (some a) session
          none none).sl_percent * 2.0) ∧
    (session = Session.us →
      (SessionAwareStrategy.default.calculate_tp_sl entry side (some a) session
          none none).tp_percent =
        (SessionAwareStrategy.default.calculate_tp_sl entry side (some a) session
          none none).sl_percent * 2.5) ∧
    ((SessionAwareStrategy.default.calculate_tp_sl entry side none session
        none none).sl_percent = 2.5 ∧
     (SessionAwareStrategy.default.calculate_tp_sl entry side none session
        none none).tp_percent = 5.0) ∧
    ((SessionAwareStrategy.default.calculate_tp_sl 100 Side.Buy (some 0.01)
        Session.european none none).sl_price = 98.5 ∧
     (SessionAwareStrategy.default.calculate_tp_sl 100 Side.Buy (some 0.01)
        Session.european none none).tp_price = 103) := by
  refine ⟨?_, ?_, ?_, ?_, ⟨?_, ?_⟩, ⟨?_, ?_⟩⟩
  · cases side <;> cases session <;>
      norm_num [SessionAwareStrategy.calculate_tp_sl, tp_sl_percentages,
        session_reward_multiple, get_session_parameters,
        SessionAwareStrategy.default]
  · intro hsession
    subst hsession
    cases side <;>
      norm_num [SessionAwareStrategy.calculate_tp_sl, tp_sl_percentages,
        session_reward_multiple, get_session_parameters,
        SessionAwareStrategy.default]
  · intro hsession
    subst hsession
    cases side <;>
      norm_num [SessionAwareStrategy.calculate_tp_sl, tp_sl_percentages,
        session_reward_multiple, get_session_parameters,
        SessionAwareStrategy.default]
  · intro hsession
    subst hsession
    cases side <;>
      norm_num [SessionAwareStrategy.calculate_tp_sl, tp_sl_percentages,
        session_reward_multiple, get_session_parameters,
        SessionAwareStrategy.default]
  · cases side <;>
      norm_num [SessionAwareStrategy.calculate_tp_sl, tp_sl_percentages,
        session_reward_multiple, get_session_parameters,
        SessionAwareStrategy.default]
  · cases side <;>
      norm_num [SessionAwareStrategy.calculate_tp_sl, tp_sl_percentages,
        session_reward_multiple, get_session_parameters,
        SessionAwareStrategy.default]
  · norm_num [SessionAwareStrategy.calculate_tp_sl, tp_sl_percentages,
      session_reward_multiple, get_session_parameters,
      SessionAwareStrategy.default]
    exact round8_eq_val _ 9850000000 (by norm_num) _ (by norm_num)
  · norm_num [SessionAwareStrategy.calculate_tp_sl, tp_sl_percentages,
      session_reward_multiple, get_session_parameters,
      SessionAwareStrategy.default]
    exact round8_eq_val _ 10300000000 (by norm_num) _ (by norm_num)

/-- C7 witness: the european Buy scenario of the claim. -/
theorem spec_c7_witness :
    (SessionAwareStrategy.default.calculate_tp_sl 100 Side.Buy (some 0.01)
        Session.european none none).sl_price = 98.5 ∧
    (SessionAwareStrategy.default.calculate_tp_sl 100 Side.Buy (some 0.01)
        Session.european none none).tp_price = 103 :=
  (spec_c7 100 (1/100) Side.Buy Session.european (by norm_num)).2.2.2.2.2

/-- The rounded value round8 x lies within half an ulp of x. -/
theorem round8_bounds (x : ℚ) :
    x - 1 / (2 * 10 ^ 8) ≤ round8 x ∧ round8 x ≤ x + 1 / (2 * 10 ^ 8) := by
  have h := abs_sub_round (x * 10 ^ 8)
  rw [abs_le] at h
  obtain ⟨h1, h2⟩ := h
  unfold round8
  constructor <;> linarith

/-- C8 counterexample: at entry_price 100 with the positive stop-loss
percentage 200, the Buy stop-loss price is -100, so the fixed policy does
not return two strictly positive prices for every positive percentage
pair. -/
theorem spec_c8_counterexample :
    (0 : ℚ) < 100 ∧ (0 : ℚ) < 1 ∧ (0 : ℚ) < 200 ∧
    ¬ (0 < (MAStrategy.calculate_tp_sl 100 Side.Buy 1 200).sl_price) := by
  refine ⟨by norm_num, by norm_num, by norm_num, ?_⟩
  have hsl : (MAStrategy.calculate_tp_sl 100 Side.Buy 1 200).sl_price =
      -100 := by
    norm_num [MAStrategy.calculate_tp_sl]
    exact round8_eq_val _ (-10000000000) (by norm_num) _ (by norm_num)
  rw [hsl]
  norm_num

/-- C8 (amended).  For entry_price > 0 and tp/sl percentages strictly
between 0 and 100 whose price offsets, and the resulting prices, are at
least one rounding ulp (10 ^ (-8)), the fixed policy orders the prices as
claimed: Buy yields tp_price > entry_price > sl_price, Sell yields
sl_price > entry_price > tp_price, and all prices are strictly positive.
Percentages of 100 or more (still positive) break price positivity, and
sub-ulp offsets collapse under the 8-decimal rounding, which is what
restricts the original claim. -/
theorem spec_c8 (entry tp sl : ℚ) (h0 : 0 < entry)
    (htp0 : 0 < tp) (hsl0 : 0 < sl) (htp1 : tp < 100) (hsl1 : sl < 100)
    (hgtp : 1 / 10 ^ 8 ≤ entry * tp / 100)
    (hgsl : 1 / 10 ^ 8 ≤ entry * sl / 100)
    (hgslp : 1 / 10 ^ 8 ≤ entry * (100 - sl) / 100)
    (hgtpp : 1 / 10 ^ 8 ≤ entry * (100 - tp) / 100) :
    (entry < (MAStrategy.calculate_tp_sl entry Side.Buy tp sl).tp_price ∧
     (MAStrategy.calculate_tp_sl entry Side.Buy tp sl).sl_price < entry ∧
     0 < (MAStrategy.calculate_tp_sl entry Side.Buy tp sl).tp_price ∧
     0 < (MAStrategy.calculate_tp_sl entry Side.Buy tp sl).sl_price) ∧
    (entry < (MAStrategy.calculate_tp_sl entry Side.Sell tp sl).sl_price ∧
     (MAStrategy.calculate_tp_sl entry Side.Sell tp sl).tp_price < entry ∧
     0 < (MAStrategy.calculate_tp_sl entry Side.Sell tp sl).sl_price ∧
     0 < (MAStrategy.calculate_tp_sl entry Side.Sell tp sl).tp_price) := by
  have hbu := round8_bounds (entry * (1 + tp / 100))
  have hbd := round8_bounds (entry * (1 - sl / 100))
  have hsu := round8_bounds (entry * (1 + sl / 100))
  have hsd := round8_bounds (entry * (1 - tp / 100))
  have e1 : entry * (1 + tp / 100) = entry + entry * tp / 100 := by ring
  have e2 : entry * (1 - sl / 100) = entry - entry * sl / 100 := by ring
  have e3 : entry * (1 + sl / 100) = entry + entry * sl / 100 := by ring
  have e4 : entry * (1 - tp / 100) = entry - entry * tp / 100 := by ring
  have e5 : entry - entry * sl / 100 = entry * (100 - sl) / 100 := by ring
  have e6 : entry - entry * tp / 100 = entry * (100 - tp) / 100 := by ring
  simp only [MAStrategy.calculate_tp_sl]
  refine ⟨⟨?_, ?_, ?_, ?_⟩, ⟨?_, ?_, ?_, ?_⟩⟩
  · linarith [hbu.1]
  · linarith [hbd.2]
  · linarith [hbu.1]
  · linarith [hbd.1]
  · linarith [hsu.1]
  · linarith [hsd.2]
  · linarith [hsu.1]
  · linarith [hsd.1]

/-- C8 witness: entry 100 with 1 percent offsets on both sides. -/
theorem spec_c8_witness :
    (MAStrategy.calculate_tp_sl 100 Side.Buy 1 1).sl_price < 100 ∧
    100 < (MAStrategy.calculate_tp_sl 100 Side.Buy 1 1).tp_price ∧
    100 < (MAStrategy.calculate_tp_sl 100 Side.Sell 1 1).sl_price ∧
    (MAStrategy.calculate_tp_sl 100 Side.Sell 1 1).tp_price < 100 := by
  have h := spec_c8 100 1 1 (by norm_num) (by norm_num) (by norm_num)
    (by norm_num) (by norm_num) (by norm_num) (by norm_num) (by norm_num)
    (by norm_num)
  exact ⟨h.1.2.1, h.1.1, h.2.1, h.2.2.1⟩

/-- C3.  The sizing scenario balance 1000, risk 20 percent, leverage 5,
entry 50000 with constraints (0.001, 0.001, 5) yields 0.020; and in
general with a positive step: the floor-quantized quantity is used as-is
when it still meets min_qty and the minimum order value, an upward
(ceiling) quantization restores the minimum order value when the floored
quantity lost it, any successfully returned quantity meets the minimum
order value, and a final notional below the minimum is reported to the
caller as an error rather than clamped. -/
theorem spec_c3 :
    execute_trade_size 1000 0.20 5 50000 0.001 0.001 5 = Except.ok 0.020 ∧
    (∀ b r l e mq st mn : ℚ, 0 < e → 0 < st →
      ((¬ floorToStep (sizeAfterMins b r l e mq mn) st < mq →
        ¬ floorToStep (sizeAfterMins b r l e mq mn) st * e < mn →
        sizeQuantized b r l e mq st mn =
          floorToStep (sizeAfterMins b r l e mq mn) st) ∧
       ((if floorToStep (sizeAfterMins b r l e mq mn) st < mq then mq
         else floorToStep (sizeAfterMins b r l e mq mn) st) * e < mn →
        sizeQuantized b r l e mq st mn = ceilToStep (mn / e) st ∧
        ¬ sizeQuantized b r l e mq st mn * e < mn) ∧
       (∀ q : ℚ, execute_trade_size b r l e mq st mn = Except.ok q →
          ¬ q * e < mn) ∧
       (formatQty (sizeQuantized b r l e mq st mn) st * e < mn →
          execute_trade_size b r l e mq st mn =
            Except.error "Order value is below minimum"))) := by
  constructor
  · norm_num [execute_trade_size, sizeQuantized, sizeAfterMins, formatQty,
      floorToStep, ceilToStep, roundToDecimals, truncQ, round_ofNat]
  · intro b r l e mq st mn he hst
    have hceil : ¬ ceilToStep (mn / e) st * e < mn := by
      rw [not_lt]
      have h1 : (mn / e) / st ≤ ((⌈(mn / e) / st⌉ : ℤ) : ℚ) := Int.le_ceil _
      have h2 : (mn / e) / st * st = mn / e :=
        div_mul_cancel₀ _ (ne_of_gt hst)
      have h3 : mn / e * e = mn := div_mul_cancel₀ _ (ne_of_gt he)
      have h4 := mul_le_mul_of_nonneg_right h1 (le_of_lt hst)
      rw [h2] at h4
      have h5 := mul_le_mul_of_nonneg_right h4 (le_of_lt he)
      rw [h3] at h5
      exact h5
    refine ⟨?_, ?_, ?_, ?_⟩
    · intro h1 h2
      simp only [sizeQuantized]
      rw [if_pos hst, if_neg h1, if_neg h2]
    · intro hlt
      have hq : sizeQuantized b r l e mq st mn = ceilToStep (mn / e) st := by
        simp only [sizeQuantized]
        rw [if_pos hst, if_pos hlt]
      refine ⟨hq, ?_⟩
      rw [hq]
      exact hceil
    · intro q hq
      simp only [execute_trade_size] at hq
      by_cases hA : formatQty (sizeQuantized b r l e mq st mn) st * e < mn
      · rw [if_pos hA] at hq
        exact absurd hq (by simp)
      · rw [if_neg hA] at hq
        injection hq with hq
        rw [← hq]
        exact hA
    · intro h
      simp only [execute_trade_size]
      rw [if_pos h]

/-- C3 witness: at the scenario input the floored quantity already meets
both minimums, so it is used as-is. -/
theorem spec_c3_witness :
    sizeQuantized 1000 0.20 5 50000 0.001 0.001 5 =
      floorToStep (sizeAfterMins 1000 0.20 5 50000 0.001 5) 0.001 :=
  (spec_c3.2 1000 0.20 5 50000 0.001 0.001 5 (by norm_num) (by norm_num)).1
    (by norm_num [floorToStep, sizeAfterMins])
    (by norm_num [floorToStep, sizeAfterMins])
